import Mathlib

/-
  Shallow embedding of the connection-lifecycle coordinator of the
  transcription relay server (src/unnamed/part_003), plus the transcript
  listener of the logging-variant server (src/unnamed/part_007).

  The server holds all per-session state in closure variables of the
  `wss.on("connection")` handler; these become the fields of `Sys` below.
  Each asynchronous callback of the source (client message, client close,
  microphone data, upstream Open / Close / Transcript events, the reconnect
  timer, and the resolution of an awaited translation call) becomes one
  constructor of `Event`, and `step` runs the corresponding handler, which is
  a direct transcription of the JavaScript handler body.  External upstream
  connections are numbered; `conns` records the transport state of every
  connection ever created by `setupDeepgram`.

  Outbound `ws.send` calls are recorded in `sendCalls`; following the
  semantics of the `ws` library (a send on a socket whose readyState is not
  OPEN is silently dropped, never delivered), a send is additionally recorded
  in `delivered` only while the client socket is open.
-/

/-- Transport state of one upstream (Deepgram) connection object. -/
inductive ConnState where
  | connecting
  | opened
  | closed
  deriving DecidableEq, BEq, Repr

/-- Ready state of the client WebSocket. -/
inductive WsReady where
  | opened
  | closed
  deriving DecidableEq, Repr

/-- A message the server writes to the client socket
    (part_003 lines 26-30, 85, 98-105, 121, 128). -/
inductive OutMsg where
  | status (data : String)
  | errorMsg (data : String)
  | debug (data : String)
  | transcript (original translated : String) (language : Option String)
  deriving DecidableEq, Repr

/-- An in-flight `translator.translateText(transcript, null, currentLanguage)`
    call (part_003 line 96): the transcript argument and the target-language
    argument captured when the call was issued. -/
structure PendingTr where
  original : String
  lang : String
  deriving DecidableEq, Repr

/-- A parsed inbound client message (the shapes the `ws.on("message")`
    handler at part_003 lines 191-213 distinguishes).  `other` is a valid
    JSON message whose `type` matches no branch. -/
inductive ClientMsg where
  | setLanguage (language : String)
  | audioData (len now : Nat)
  | mute
  | unmute
  | other
  deriving DecidableEq, Repr

/-- The fixed language-code → human-readable-label map
    (part_003 lines 35-40). -/
def supportedLanguages (c : String) : Option String :=
  if c = "ja" then some "Japanese"
  else if c = "ko" then some "Korean"
  else if c = "ZH-HANT" then some "Chinese (Traditional)"
  else if c = "es" then some "Spanish"
  else none

/-- The fixed reconnect delay of the `setTimeout` at part_003 line 131. -/
def reconnectDelayMs : Nat := 5000

/-- All per-session mutable state: the closure variables of the connection
    handler (part_003 lines 46-54) together with the bookkeeping needed to
    observe the session from outside (created connections, scheduled timers,
    in-flight translations, emitted messages, audio forwarded upstream). -/
structure Sys where
  /-- transport state of connection object `i`, for every connection the
      session ever created (the `deepgramConnection` values over time). -/
  conns : List ConnState
  /-- which connection the `deepgramConnection` variable currently holds. -/
  deepgramConnection : Option Nat
  isDeepgramConnected : Bool
  isMuted : Bool
  isWebSocketClosed : Bool
  /-- The `ws.readyState` of the client socket. -/
  wsReady : WsReady
  currentLanguage : String
  totalAudioBytesSent : Nat
  lastAudioSentTimestamp : Nat
  isReceivingAudio : Bool
  /-- the `micInstance` variable has been assigned (it is never cleared). -/
  micInstanceSet : Bool
  /-- the microphone stream is emitting data. -/
  micRunning : Bool
  /-- number of `micInstance.stop()` calls performed. -/
  micStopCalls : Nat
  /-- number of `deepgramConnection.finish()` calls performed. -/
  finishCalls : Nat
  /-- delays of scheduled, not yet fired, reconnect timers. -/
  pendingTimers : List Nat
  /-- in-flight translation calls, oldest first. -/
  pendingTranslations : List PendingTr
  /-- audio chunks that reached the upstream link: (connection id, byte
      length), most recent first. -/
  audioForwarded : List (Nat × Nat)
  /-- every `ws.send` performed, most recent first. -/
  sendCalls : List OutMsg
  /-- the sends performed while the client socket was open (the ones the
      client can actually receive), most recent first. -/
  delivered : List OutMsg
  /-- messages logged by the process-level `uncaughtException` handler
      (part_003 lines 242-244). -/
  uncaughtLogged : Nat
  deriving DecidableEq, Repr

/-- Model of `ws.send(JSON.stringify(m))`: always recorded as a call; recorded as
    delivered only while the client socket is open (the `ws` library drops
    writes on a closed socket). -/
def wsSendMsg (m : OutMsg) (s : Sys) : Sys :=
  { s with sendCalls := m :: s.sendCalls,
           delivered := if s.wsReady = WsReady.opened then m :: s.delivered
                        else s.delivered }

/-- The `sendDebugToClient` helper (part_003 lines 26-30): sends a debug message only
    when `ws.readyState === WebSocket.OPEN`. -/
def sendDebugToClient (msg : String) (s : Sys) : Sys :=
  if s.wsReady = WsReady.opened then wsSendMsg (OutMsg.debug msg) s else s

/-- The test `deepgramConnection.getReadyState() === WebSocket.OPEN`: the connection
    currently held by the `deepgramConnection` variable is open. -/
def dgReady (s : Sys) : Bool :=
  match s.deepgramConnection with
  | some cid => s.conns[cid]? == some ConnState.opened
  | none => false

/-- A call of `deepgramConnection.finish()` on the connection currently held by the
    variable: requests close of that connection (no-op when the variable was
    never assigned, matching the `if (deepgramConnection)` guards). -/
def finishConn (s : Sys) : Sys :=
  match s.deepgramConnection with
  | some cid => { s with conns := s.conns.set cid ConnState.closed,
                         finishCalls := s.finishCalls + 1 }
  | none => s

/-- The `setupMicrophone` function (part_003 lines 144-187): assigns `micInstance`,
    starts it, and reports.  (The mic options object has no behaviour.) -/
def setupMicrophone (s : Sys) : Sys :=
  let s := { s with micInstanceSet := true, micRunning := true }
  sendDebugToClient "Microphone started" s

/-- The `setupDeepgram` function (part_003 lines 56-74): guarded by
    `if (isDeepgramConnected || isWebSocketClosed) return;`, then creates a
    fresh live connection and stores it in `deepgramConnection`. -/
def setupDeepgram (s : Sys) : Sys :=
  if s.isDeepgramConnected = true ∨ s.isWebSocketClosed = true then s
  else
    let s := sendDebugToClient "Creating Deepgram connection..." s
    { s with deepgramConnection := some s.conns.length,
             conns := s.conns ++ [ConnState.connecting] }

/-- The `LiveTranscriptionEvents.Open` listener (part_003 lines 76-116),
    fired when connection `cid` finishes connecting: the transport opens the
    connection, then the handler either retires it (client already closed,
    lines 77-81) or marks the session connected, reports `Connected`, and
    starts the microphone. -/
def onDgOpen (cid : Nat) (s : Sys) : Sys :=
  if s.conns[cid]? = some ConnState.connecting then
    let s := { s with conns := s.conns.set cid ConnState.opened }
    if s.isWebSocketClosed = true then finishConn s
    else
      let s := sendDebugToClient "Deepgram connection opened" s
      let s := { s with isDeepgramConnected := true }
      let s := wsSendMsg (OutMsg.status "Connected") s
      setupMicrophone s
  else s

/-- The `LiveTranscriptionEvents.Close` listener (part_003 lines 124-136),
    fired when a live connection closes: marks the session disconnected,
    reports `Disconnected`, and — when the client socket is not closed —
    schedules one reconnect timer with the fixed 5-second delay. -/
def onDgClose (cid : Nat) (s : Sys) : Sys :=
  if s.conns[cid]? = some ConnState.connecting ∨ s.conns[cid]? = some ConnState.opened then
    let s := { s with conns := s.conns.set cid ConnState.closed }
    let s := sendDebugToClient "Deepgram connection closed" s
    let s := { s with isDeepgramConnected := false }
    let s := wsSendMsg (OutMsg.status "Disconnected") s
    if s.isWebSocketClosed = false ∧ s.wsReady = WsReady.opened then
      { s with pendingTimers := reconnectDelayMs :: s.pendingTimers }
    else s
  else s

/-- The `transcript.trim()` of part_003 line 92: removes leading and
    trailing whitespace.  Written over the character list so that it
    evaluates inside the kernel (core `String.trim` does not). -/
def jsTrim (s : String) : String :=
  String.mk (((s.toList.dropWhile Char.isWhitespace).reverse.dropWhile
    Char.isWhitespace).reverse)

/-- The `LiveTranscriptionEvents.Transcript` listener (part_003 lines
    87-113), fired when some open connection emits a transcript: after the
    diagnostic debug messages, a non-empty non-whitespace transcript issues
    a translation call capturing the current language (the code up to the
    `await`); an empty or whitespace-only transcript only reports. -/
def onDgTranscript (text : String) (s : Sys) : Sys :=
  if s.conns.any (fun c => c == ConnState.opened) then
    let s := sendDebugToClient ("Raw transcript data: " ++ text) s
    let s := sendDebugToClient ("Extracted transcript: " ++ text) s
    if text ≠ "" ∧ jsTrim text ≠ "" then
      let s := sendDebugToClient ("Received non-empty transcript: " ++ text) s
      { s with pendingTranslations := s.pendingTranslations ++ [⟨text, s.currentLanguage⟩] }
    else
      sendDebugToClient "Received empty transcript" s
  else s

/-- The continuation after `await translator.translateText(...)` (part_003
    lines 96-109): on success, report and send the transcript event, whose
    `language` field looks up `currentLanguage` (read after the await) in
    `supportedLanguages`; on rejection, the catch block only reports the
    error.  In-flight calls resolve oldest first. -/
def onTranslationResolve (res : Except String String) (s : Sys) : Sys :=
  match s.pendingTranslations with
  | [] => s
  | p :: rest =>
    let s := { s with pendingTranslations := rest }
    match res with
    | Except.ok t =>
      let s := sendDebugToClient ("Translated text: " ++ t) s
      wsSendMsg (OutMsg.transcript p.original t (supportedLanguages s.currentLanguage)) s
    | Except.error e =>
      sendDebugToClient ("Translation error: " ++ e) s

/-- The audio-forwarding block that appears verbatim both in the microphone
    data handler (part_003 lines 161-167) and in the `audioData` branch of
    the message handler (lines 198-204): `deepgramConnection.send(data)`,
    the running byte counter, and the rate-limited (every 5 seconds) debug
    report. -/
def forwardAudio (len now : Nat) (s : Sys) : Sys :=
  let cid := s.deepgramConnection.getD 0
  let s := { s with audioForwarded := (cid, len) :: s.audioForwarded,
                    totalAudioBytesSent := s.totalAudioBytesSent + len }
  if now - s.lastAudioSentTimestamp ≥ 5000 then
    let s := sendDebugToClient "Sent total bytes of audio data to Deepgram" s
    { s with lastAudioSentTimestamp := now }
  else s

/-- The `micInputStream.on("data")` listener (part_003 lines 159-177):
    forwards the chunk when the upstream connection is marked connected and
    its transport is open — the mute flag is NOT consulted on this path —
    otherwise reports and, when not marked connected, re-runs
    `setupDeepgram`. -/
def onMicData (len now : Nat) (s : Sys) : Sys :=
  if s.micRunning = true then
    if s.isDeepgramConnected && dgReady s then
      forwardAudio len now s
    else
      let s := sendDebugToClient "Microphone data received, but Deepgram connection is not open" s
      if s.isDeepgramConnected = false then
        let s := sendDebugToClient "Attempting to reconnect to Deepgram..." s
        setupDeepgram s
      else s
  else s

/-- The body of the `ws.on("message")` handler after a successful
    `JSON.parse` (part_003 lines 193-212).  The `audioData` branch forwards
    the chunk only when `!isMuted && isDeepgramConnected &&
    deepgramConnection.getReadyState() === WebSocket.OPEN`. -/
def handleClientMsg (m : ClientMsg) (s : Sys) : Sys :=
  match m with
  | ClientMsg.setLanguage l =>
    let s := { s with currentLanguage := l }
    sendDebugToClient ("Language set to: " ++ (supportedLanguages l).getD "undefined") s
  | ClientMsg.audioData len now =>
    if !s.isMuted && (s.isDeepgramConnected && dgReady s) then
      forwardAudio len now s
    else s
  | ClientMsg.mute =>
    let s := { s with isMuted := true }
    sendDebugToClient "Client is muted, stopping audio data transmission." s
  | ClientMsg.unmute =>
    let s := { s with isMuted := false }
    sendDebugToClient "Client is unmuted, resuming audio data transmission." s
  | ClientMsg.other => s

/-- The `ws.on("message")` handler (part_003 lines 191-213).  `raw = none`
    models an inbound frame that is not valid JSON: `JSON.parse(message)` at
    line 192 is not wrapped in any try/catch, so the handler throws. -/
def onWsMessage (raw : Option ClientMsg) (s : Sys) : Except Unit Sys :=
  match raw with
  | none => Except.error ()
  | some m => Except.ok (handleClientMsg m s)

/-- The `ws.on("close")` handler (part_003 lines 215-229).  It runs with the
    client socket already closed.  Neither `micInstance` nor
    `deepgramConnection` is cleared, so the truthiness guards pass again on a
    repeated run. -/
def wsCloseHandler (s : Sys) : Sys :=
  let s := sendDebugToClient "WebSocket connection closed" s
  let s := { s with isWebSocketClosed := true }
  let s :=
    if s.micInstanceSet = true then
      let s := { s with micRunning := false, micStopCalls := s.micStopCalls + 1 }
      sendDebugToClient "Microphone stopped" s
    else s
  let s :=
    match s.deepgramConnection with
    | some _ =>
      let s := finishConn s
      let s := sendDebugToClient "Deepgram connection finished" s
      { s with isDeepgramConnected := false }
    | none => s
  { s with isReceivingAudio := false }

/-- The reconnect `setTimeout` callback (part_003 lines 131-134): one
    pending timer fires, reports, and re-runs `setupDeepgram`. -/
def onTimerFire (s : Sys) : Sys :=
  match s.pendingTimers with
  | [] => s
  | _ :: rest =>
    let s := { s with pendingTimers := rest }
    let s := sendDebugToClient "Attempting to reconnect to Deepgram..." s
    setupDeepgram s

/-- One asynchronous callback delivery for a session. -/
inductive Event where
  /-- a text frame from the client; `none` = malformed JSON. -/
  | clientMessage (raw : Option ClientMsg)
  /-- the client socket closes. -/
  | clientClose
  /-- a microphone chunk of `len` bytes arriving at time `now`. -/
  | micData (len now : Nat)
  /-- connection `cid` finishes opening. -/
  | dgOpen (cid : Nat)
  /-- connection `cid` closes. -/
  | dgClose (cid : Nat)
  /-- an open upstream connection emits transcript `text`. -/
  | dgTranscript (text : String)
  /-- the oldest in-flight translation call settles. -/
  | translationResolve (res : Except String String)
  /-- a scheduled reconnect timer fires. -/
  | timerFire

/-- Deliver one event: run the corresponding source handler.  Events that
    cannot occur in the modelled situation (a message or close on an already
    closed client socket, an Open for a connection that is not connecting, a
    timer with none pending, ...) leave the state unchanged.  A throwing
    message handler is caught only by the process-level `uncaughtException`
    hook (part_003 lines 242-244), which logs and continues. -/
def step (e : Event) (s : Sys) : Sys :=
  match e with
  | Event.clientMessage raw =>
    if s.wsReady = WsReady.opened then
      match onWsMessage raw s with
      | Except.ok s' => s'
      | Except.error _ => { s with uncaughtLogged := s.uncaughtLogged + 1 }
    else s
  | Event.clientClose =>
    if s.wsReady = WsReady.opened then wsCloseHandler { s with wsReady := WsReady.closed }
    else s
  | Event.micData len now => onMicData len now s
  | Event.dgOpen cid => onDgOpen cid s
  | Event.dgClose cid => onDgClose cid s
  | Event.dgTranscript text => onDgTranscript text s
  | Event.translationResolve res => onTranslationResolve res s
  | Event.timerFire => onTimerFire s

/-- The session state right after the `wss.on("connection")` handler body
    ran (part_003 lines 42-189): fresh closure variables (default language
    `"ja"`), the greeting debug message, and the initial `setupDeepgram`. -/
def connectInit : Sys :=
  setupDeepgram (sendDebugToClient "New WebSocket connection established"
    { conns := [], deepgramConnection := none, isDeepgramConnected := false,
      isMuted := false, isWebSocketClosed := false, wsReady := WsReady.opened,
      currentLanguage := "ja", totalAudioBytesSent := 0,
      lastAudioSentTimestamp := 0, isReceivingAudio := false,
      micInstanceSet := false, micRunning := false, micStopCalls := 0,
      finishCalls := 0, pendingTimers := [], pendingTranslations := [],
      audioForwarded := [], sendCalls := [], delivered := [],
      uncaughtLogged := 0 })

/-- Run a session from `connectInit` through a sequence of events. -/
def run (es : List Event) : Sys :=
  es.foldl (fun s e => step e s) connectInit

/-- Number of upstream connections whose transport is open. -/
def openConnCount (s : Sys) : Nat :=
  (s.conns.filter (fun c => c == ConnState.opened)).length

/-- Whether an outbound message is a `transcript` event. -/
def isTranscriptMsg : OutMsg → Bool
  | OutMsg.transcript _ _ _ => true
  | _ => false

/-- Number of `transcript` events in a message list. -/
def transcriptCount (l : List OutMsg) : Nat :=
  (l.filter isTranscriptMsg).length

/-- A client-visible message of the logging-variant server
    (src/unnamed/part_007). -/
inductive Out007 where
  | transcriptMsg (data : String)
  deriving DecidableEq, Repr

/-- The `LiveTranscriptionEvents.Transcript` listener of the variant server
    (part_007 lines 82-90): `if (transcript)` — JavaScript truthiness, i.e.
    any non-empty string — forwards the transcript to the client; only the
    empty string is dropped.  The `logger.debug` calls go to the server log,
    not to the client, and are omitted. -/
def transcriptHandler007 (transcript : String) : List Out007 :=
  if transcript ≠ "" then [Out007.transcriptMsg transcript] else []

/- ### Field-preservation lemmas for the output helpers -/

@[simp] theorem wsSendMsg_conns (m : OutMsg) (s : Sys) : (wsSendMsg m s).conns = s.conns := rfl

@[simp] theorem wsSendMsg_deepgramConnection (m : OutMsg) (s : Sys) : (wsSendMsg m s).deepgramConnection = s.deepgramConnection := rfl

@[simp] theorem wsSendMsg_isDeepgramConnected (m : OutMsg) (s : Sys) : (wsSendMsg m s).isDeepgramConnected = s.isDeepgramConnected := rfl

@[simp] theorem wsSendMsg_isMuted (m : OutMsg) (s : Sys) : (wsSendMsg m s).isMuted = s.isMuted := rfl

@[simp] theorem wsSendMsg_isWebSocketClosed (m : OutMsg) (s : Sys) : (wsSendMsg m s).isWebSocketClosed = s.isWebSocketClosed := rfl

@[simp] theorem wsSendMsg_wsReady (m : OutMsg) (s : Sys) : (wsSendMsg m s).wsReady = s.wsReady := rfl

@[simp] theorem wsSendMsg_currentLanguage (m : OutMsg) (s : Sys) : (wsSendMsg m s).currentLanguage = s.currentLanguage := rfl

@[simp] theorem wsSendMsg_totalAudioBytesSent (m : OutMsg) (s : Sys) : (wsSendMsg m s).totalAudioBytesSent = s.totalAudioBytesSent := rfl

@[simp] theorem wsSendMsg_lastAudioSentTimestamp (m : OutMsg) (s : Sys) : (wsSendMsg m s).lastAudioSentTimestamp = s.lastAudioSentTimestamp := rfl

@[simp] theorem wsSendMsg_isReceivingAudio (m : OutMsg) (s : Sys) : (wsSendMsg m s).isReceivingAudio = s.isReceivingAudio := rfl

@[simp] theorem wsSendMsg_micInstanceSet (m : OutMsg) (s : Sys) : (wsSendMsg m s).micInstanceSet = s.micInstanceSet := rfl

@[simp] theorem wsSendMsg_micRunning (m : OutMsg) (s : Sys) : (wsSendMsg m s).micRunning = s.micRunning := rfl

@[simp] theorem wsSendMsg_micStopCalls (m : OutMsg) (s : Sys) : (wsSendMsg m s).micStopCalls = s.micStopCalls := rfl

@[simp] theorem wsSendMsg_finishCalls (m : OutMsg) (s : Sys) : (wsSendMsg m s).finishCalls = s.finishCalls := rfl

@[simp] theorem wsSendMsg_pendingTimers (m : OutMsg) (s : Sys) : (wsSendMsg m s).pendingTimers = s.pendingTimers := rfl

@[simp] theorem wsSendMsg_pendingTranslations (m : OutMsg) (s : Sys) : (wsSendMsg m s).pendingTranslations = s.pendingTranslations := rfl

@[simp] theorem wsSendMsg_audioForwarded (m : OutMsg) (s : Sys) : (wsSendMsg m s).audioForwarded = s.audioForwarded := rfl

@[simp] theorem wsSendMsg_uncaughtLogged (m : OutMsg) (s : Sys) : (wsSendMsg m s).uncaughtLogged = s.uncaughtLogged := rfl

@[simp] theorem wsSendMsg_sendCalls (m : OutMsg) (s : Sys) : (wsSendMsg m s).sendCalls = m :: s.sendCalls := rfl

@[simp] theorem sendDebugToClient_conns (m : String) (s : Sys) : (sendDebugToClient m s).conns = s.conns := by
  unfold sendDebugToClient; split <;> simp

@[simp] theorem sendDebugToClient_deepgramConnection (m : String) (s : Sys) : (sendDebugToClient m s).deepgramConnection = s.deepgramConnection := by
  unfold sendDebugToClient; split <;> simp

@[simp] theorem sendDebugToClient_isDeepgramConnected (m : String) (s : Sys) : (sendDebugToClient m s).isDeepgramConnected = s.isDeepgramConnected := by
  unfold sendDebugToClient; split <;> simp

@[simp] theorem sendDebugToClient_isMuted (m : String) (s : Sys) : (sendDebugToClient m s).isMuted = s.isMuted := by
  unfold sendDebugToClient; split <;> simp

@[simp] theorem sendDebugToClient_isWebSocketClosed (m : String) (s : Sys) : (sendDebugToClient m s).isWebSocketClosed = s.isWebSocketClosed := by
  unfold sendDebugToClient; split <;> simp

@[simp] theorem sendDebugToClient_wsReady (m : String) (s : Sys) : (sendDebugToClient m s).wsReady = s.wsReady := by
  unfold sendDebugToClient; split <;> simp

@[simp] theorem sendDebugToClient_currentLanguage (m : String) (s : Sys) : (sendDebugToClient m s).currentLanguage = s.currentLanguage := by
  unfold sendDebugToClient; split <;> simp

@[simp] theorem sendDebugToClient_totalAudioBytesSent (m : String) (s : Sys) : (sendDebugToClient m s).totalAudioBytesSent = s.totalAudioBytesSent := by
  unfold sendDebugToClient; split <;> simp

@[simp] theorem sendDebugToClient_lastAudioSentTimestamp (m : String) (s : Sys) : (sendDebugToClient m s).lastAudioSentTimestamp = s.lastAudioSentTimestamp := by
  unfold sendDebugToClient; split <;> simp

@[simp] theorem sendDebugToClient_isReceivingAudio (m : String) (s : Sys) : (sendDebugToClient m s).isReceivingAudio = s.isReceivingAudio := by
  unfold sendDebugToClient; split <;> simp

@[simp] theorem sendDebugToClient_micInstanceSet (m : String) (s : Sys) : (sendDebugToClient m s).micInstanceSet = s.micInstanceSet := by
  unfold sendDebugToClient; split <;> simp

@[simp] theorem sendDebugToClient_micRunning (m : String) (s : Sys) : (sendDebugToClient m s).micRunning = s.micRunning := by
  unfold sendDebugToClient; split <;> simp

@[simp] theorem sendDebugToClient_micStopCalls (m : String) (s : Sys) : (sendDebugToClient m s).micStopCalls = s.micStopCalls := by
  unfold sendDebugToClient; split <;> simp

@[simp] theorem sendDebugToClient_finishCalls (m : String) (s : Sys) : (sendDebugToClient m s).finishCalls = s.finishCalls := by
  unfold sendDebugToClient; split <;> simp

@[simp] theorem sendDebugToClient_pendingTimers (m : String) (s : Sys) : (sendDebugToClient m s).pendingTimers = s.pendingTimers := by
  unfold sendDebugToClient; split <;> simp

@[simp] theorem sendDebugToClient_pendingTranslations (m : String) (s : Sys) : (sendDebugToClient m s).pendingTranslations = s.pendingTranslations := by
  unfold sendDebugToClient; split <;> simp

@[simp] theorem sendDebugToClient_audioForwarded (m : String) (s : Sys) : (sendDebugToClient m s).audioForwarded = s.audioForwarded := by
  unfold sendDebugToClient; split <;> simp

@[simp] theorem sendDebugToClient_uncaughtLogged (m : String) (s : Sys) : (sendDebugToClient m s).uncaughtLogged = s.uncaughtLogged := by
  unfold sendDebugToClient; split <;> simp

/- ### More helper lemmas -/

/-- Setting an index of a list to the value it already holds changes
    nothing. -/
theorem list_set_self {α : Type} : ∀ (l : List α) (i : Nat) (a : α),
    l[i]? = some a → l.set i a = l
  | [], i, a, h => by simp at h
  | b :: t, 0, a, h => by
      simp only [List.getElem?_cons_zero, Option.some.injEq] at h
      simp [List.set, h]
  | b :: t, i + 1, a, h => by
      simp only [List.getElem?_cons_succ] at h
      simp [List.set, list_set_self t i a h]

@[simp] theorem forwardAudio_conns (len now : Nat) (s : Sys) : (forwardAudio len now s).conns = s.conns := by
  simp only [forwardAudio]; split <;> simp

@[simp] theorem forwardAudio_deepgramConnection (len now : Nat) (s : Sys) : (forwardAudio len now s).deepgramConnection = s.deepgramConnection := by
  simp only [forwardAudio]; split <;> simp

@[simp] theorem forwardAudio_isDeepgramConnected (len now : Nat) (s : Sys) : (forwardAudio len now s).isDeepgramConnected = s.isDeepgramConnected := by
  simp only [forwardAudio]; split <;> simp

@[simp] theorem forwardAudio_isMuted (len now : Nat) (s : Sys) : (forwardAudio len now s).isMuted = s.isMuted := by
  simp only [forwardAudio]; split <;> simp

@[simp] theorem forwardAudio_isWebSocketClosed (len now : Nat) (s : Sys) : (forwardAudio len now s).isWebSocketClosed = s.isWebSocketClosed := by
  simp only [forwardAudio]; split <;> simp

@[simp] theorem forwardAudio_wsReady (len now : Nat) (s : Sys) : (forwardAudio len now s).wsReady = s.wsReady := by
  simp only [forwardAudio]; split <;> simp

@[simp] theorem forwardAudio_currentLanguage (len now : Nat) (s : Sys) : (forwardAudio len now s).currentLanguage = s.currentLanguage := by
  simp only [forwardAudio]; split <;> simp

@[simp] theorem forwardAudio_micRunning (len now : Nat) (s : Sys) : (forwardAudio len now s).micRunning = s.micRunning := by
  simp only [forwardAudio]; split <;> simp

@[simp] theorem forwardAudio_pendingTimers (len now : Nat) (s : Sys) : (forwardAudio len now s).pendingTimers = s.pendingTimers := by
  simp only [forwardAudio]; split <;> simp

@[simp] theorem forwardAudio_pendingTranslations (len now : Nat) (s : Sys) : (forwardAudio len now s).pendingTranslations = s.pendingTranslations := by
  simp only [forwardAudio]; split <;> simp

@[simp] theorem forwardAudio_audioForwarded (len now : Nat) (s : Sys) : (forwardAudio len now s).audioForwarded = (s.deepgramConnection.getD 0, len) :: s.audioForwarded := by
  simp only [forwardAudio]; split <;> simp

@[simp] theorem setupMicrophone_isWebSocketClosed (s : Sys) : (setupMicrophone s).isWebSocketClosed = s.isWebSocketClosed := by
  simp [setupMicrophone]

@[simp] theorem setupMicrophone_wsReady (s : Sys) : (setupMicrophone s).wsReady = s.wsReady := by
  simp [setupMicrophone]

@[simp] theorem setupMicrophone_conns (s : Sys) : (setupMicrophone s).conns = s.conns := by
  simp [setupMicrophone]

@[simp] theorem setupDeepgram_isWebSocketClosed (s : Sys) : (setupDeepgram s).isWebSocketClosed = s.isWebSocketClosed := by
  simp only [setupDeepgram]; split <;> simp

@[simp] theorem setupDeepgram_wsReady (s : Sys) : (setupDeepgram s).wsReady = s.wsReady := by
  simp only [setupDeepgram]; split <;> simp

@[simp] theorem finishConn_isWebSocketClosed (s : Sys) : (finishConn s).isWebSocketClosed = s.isWebSocketClosed := by
  simp only [finishConn]; split <;> simp

@[simp] theorem finishConn_wsReady (s : Sys) : (finishConn s).wsReady = s.wsReady := by
  simp only [finishConn]; split <;> simp

@[simp] theorem handleClientMsg_isWebSocketClosed (m : ClientMsg) (s : Sys) : (handleClientMsg m s).isWebSocketClosed = s.isWebSocketClosed := by
  cases m <;> simp only [handleClientMsg] <;> (try split) <;> simp

@[simp] theorem handleClientMsg_wsReady (m : ClientMsg) (s : Sys) : (handleClientMsg m s).wsReady = s.wsReady := by
  cases m <;> simp only [handleClientMsg] <;> (try split) <;> simp

@[simp] theorem onMicData_isWebSocketClosed (len now : Nat) (s : Sys) : (onMicData len now s).isWebSocketClosed = s.isWebSocketClosed := by
  simp only [onMicData]; split <;> (try split) <;> (try split) <;> simp

@[simp] theorem onMicData_wsReady (len now : Nat) (s : Sys) : (onMicData len now s).wsReady = s.wsReady := by
  simp only [onMicData]; split <;> (try split) <;> (try split) <;> simp

@[simp] theorem onDgOpen_isWebSocketClosed (cid : Nat) (s : Sys) : (onDgOpen cid s).isWebSocketClosed = s.isWebSocketClosed := by
  simp only [onDgOpen]; split <;> (try split) <;> simp

@[simp] theorem onDgOpen_wsReady (cid : Nat) (s : Sys) : (onDgOpen cid s).wsReady = s.wsReady := by
  simp only [onDgOpen]; split <;> (try split) <;> simp

@[simp] theorem onDgClose_isWebSocketClosed (cid : Nat) (s : Sys) : (onDgClose cid s).isWebSocketClosed = s.isWebSocketClosed := by
  simp only [onDgClose]; split <;> (try split) <;> simp

@[simp] theorem onDgClose_wsReady (cid : Nat) (s : Sys) : (onDgClose cid s).wsReady = s.wsReady := by
  simp only [onDgClose]; split <;> (try split) <;> simp

@[simp] theorem onDgTranscript_isWebSocketClosed (text : String) (s : Sys) : (onDgTranscript text s).isWebSocketClosed = s.isWebSocketClosed := by
  simp only [onDgTranscript]; split <;> (try split) <;> simp

@[simp] theorem onDgTranscript_wsReady (text : String) (s : Sys) : (onDgTranscript text s).wsReady = s.wsReady := by
  simp only [onDgTranscript]; split <;> (try split) <;> simp

@[simp] theorem onTranslationResolve_isWebSocketClosed (res : Except String String) (s : Sys) : (onTranslationResolve res s).isWebSocketClosed = s.isWebSocketClosed := by
  simp only [onTranslationResolve]; split <;> (try split) <;> simp

@[simp] theorem onTranslationResolve_wsReady (res : Except String String) (s : Sys) : (onTranslationResolve res s).wsReady = s.wsReady := by
  simp only [onTranslationResolve]; split <;> (try split) <;> simp

@[simp] theorem onTimerFire_isWebSocketClosed (s : Sys) : (onTimerFire s).isWebSocketClosed = s.isWebSocketClosed := by
  simp only [onTimerFire]; split <;> simp

@[simp] theorem onTimerFire_wsReady (s : Sys) : (onTimerFire s).wsReady = s.wsReady := by
  simp only [onTimerFire]; split <;> simp

@[simp] theorem wsCloseHandler_isWebSocketClosed (s : Sys) : (wsCloseHandler s).isWebSocketClosed = true := by
  simp only [wsCloseHandler]; split <;> (try split) <;> simp

@[simp] theorem wsCloseHandler_wsReady (s : Sys) : (wsCloseHandler s).wsReady = s.wsReady := by
  simp only [wsCloseHandler]; split <;> (try split) <;> simp

/-- The two views of "the client link is closed" that the source keeps — the
    `isWebSocketClosed` closure flag and the socket ready state — agree in
    every reachable session state. -/
def wsInv (s : Sys) : Prop :=
  s.isWebSocketClosed = false ↔ s.wsReady = WsReady.opened

theorem step_wsInv (e : Event) (s : Sys) (h : wsInv s) : wsInv (step e s) := by
  cases e with
  | clientMessage raw =>
      cases raw with
      | none =>
          simp only [step, onWsMessage]
          split
          · simpa [wsInv] using h
          · exact h
      | some m =>
          simp only [step, onWsMessage]
          split
          · simpa [wsInv] using h
          · exact h
  | clientClose =>
      simp only [step]
      split
      · simp [wsInv]
      · exact h
  | micData len now => simpa [step, wsInv] using h
  | dgOpen cid => simpa [step, wsInv] using h
  | dgClose cid => simpa [step, wsInv] using h
  | dgTranscript text => simpa [step, wsInv] using h
  | translationResolve res => simpa [step, wsInv] using h
  | timerFire => simpa [step, wsInv] using h

theorem runFrom_wsInv : ∀ (es : List Event) (s : Sys), wsInv s →
    wsInv (es.foldl (fun t e => step e t) s)
  | [], _, h => h
  | e :: t, s, h => runFrom_wsInv t (step e s) (step_wsInv e s h)

theorem run_wsInv (es : List Event) : wsInv (run es) :=
  runFrom_wsInv es connectInit (by constructor <;> intro <;> rfl)

@[simp] theorem wsSendMsg_delivered (m : OutMsg) (s : Sys) : (wsSendMsg m s).delivered = if s.wsReady = WsReady.opened then m :: s.delivered else s.delivered := rfl

@[simp] theorem setupMicrophone_deepgramConnection (s : Sys) : (setupMicrophone s).deepgramConnection = s.deepgramConnection := by
  simp [setupMicrophone]

@[simp] theorem setupMicrophone_isDeepgramConnected (s : Sys) : (setupMicrophone s).isDeepgramConnected = s.isDeepgramConnected := by
  simp [setupMicrophone]

@[simp] theorem setupMicrophone_isMuted (s : Sys) : (setupMicrophone s).isMuted = s.isMuted := by
  simp [setupMicrophone]

@[simp] theorem setupMicrophone_currentLanguage (s : Sys) : (setupMicrophone s).currentLanguage = s.currentLanguage := by
  simp [setupMicrophone]

@[simp] theorem setupMicrophone_pendingTimers (s : Sys) : (setupMicrophone s).pendingTimers = s.pendingTimers := by
  simp [setupMicrophone]

@[simp] theorem setupMicrophone_pendingTranslations (s : Sys) : (setupMicrophone s).pendingTranslations = s.pendingTranslations := by
  simp [setupMicrophone]

@[simp] theorem setupMicrophone_audioForwarded (s : Sys) : (setupMicrophone s).audioForwarded = s.audioForwarded := by
  simp [setupMicrophone]

@[simp] theorem setupMicrophone_micStopCalls (s : Sys) : (setupMicrophone s).micStopCalls = s.micStopCalls := by
  simp [setupMicrophone]

@[simp] theorem setupMicrophone_finishCalls (s : Sys) : (setupMicrophone s).finishCalls = s.finishCalls := by
  simp [setupMicrophone]

@[simp] theorem setupDeepgram_isDeepgramConnected (s : Sys) : (setupDeepgram s).isDeepgramConnected = s.isDeepgramConnected := by
  simp only [setupDeepgram]; split <;> simp

@[simp] theorem setupDeepgram_isMuted (s : Sys) : (setupDeepgram s).isMuted = s.isMuted := by
  simp only [setupDeepgram]; split <;> simp

@[simp] theorem setupDeepgram_currentLanguage (s : Sys) : (setupDeepgram s).currentLanguage = s.currentLanguage := by
  simp only [setupDeepgram]; split <;> simp

@[simp] theorem setupDeepgram_pendingTimers (s : Sys) : (setupDeepgram s).pendingTimers = s.pendingTimers := by
  simp only [setupDeepgram]; split <;> simp

@[simp] theorem setupDeepgram_pendingTranslations (s : Sys) : (setupDeepgram s).pendingTranslations = s.pendingTranslations := by
  simp only [setupDeepgram]; split <;> simp

@[simp] theorem setupDeepgram_audioForwarded (s : Sys) : (setupDeepgram s).audioForwarded = s.audioForwarded := by
  simp only [setupDeepgram]; split <;> simp

@[simp] theorem setupDeepgram_micRunning (s : Sys) : (setupDeepgram s).micRunning = s.micRunning := by
  simp only [setupDeepgram]; split <;> simp

@[simp] theorem setupDeepgram_micStopCalls (s : Sys) : (setupDeepgram s).micStopCalls = s.micStopCalls := by
  simp only [setupDeepgram]; split <;> simp

@[simp] theorem setupDeepgram_finishCalls (s : Sys) : (setupDeepgram s).finishCalls = s.finishCalls := by
  simp only [setupDeepgram]; split <;> simp

@[simp] theorem finishConn_conns_length (s : Sys) : (finishConn s).conns.length = s.conns.length := by
  simp only [finishConn]; split <;> simp

@[simp] theorem finishConn_deepgramConnection (s : Sys) : (finishConn s).deepgramConnection = s.deepgramConnection := by
  simp only [finishConn]; split <;> simp

@[simp] theorem finishConn_pendingTimers (s : Sys) : (finishConn s).pendingTimers = s.pendingTimers := by
  simp only [finishConn]; split <;> simp

@[simp] theorem finishConn_pendingTranslations (s : Sys) : (finishConn s).pendingTranslations = s.pendingTranslations := by
  simp only [finishConn]; split <;> simp

@[simp] theorem finishConn_sendCalls (s : Sys) : (finishConn s).sendCalls = s.sendCalls := by
  simp only [finishConn]; split <;> simp

@[simp] theorem finishConn_delivered (s : Sys) : (finishConn s).delivered = s.delivered := by
  simp only [finishConn]; split <;> simp

@[simp] theorem finishConn_isMuted (s : Sys) : (finishConn s).isMuted = s.isMuted := by
  simp only [finishConn]; split <;> simp

@[simp] theorem finishConn_currentLanguage (s : Sys) : (finishConn s).currentLanguage = s.currentLanguage := by
  simp only [finishConn]; split <;> simp

@[simp] theorem finishConn_micStopCalls (s : Sys) : (finishConn s).micStopCalls = s.micStopCalls := by
  simp only [finishConn]; split <;> simp

@[simp] theorem finishConn_micRunning (s : Sys) : (finishConn s).micRunning = s.micRunning := by
  simp only [finishConn]; split <;> simp

@[simp] theorem finishConn_micInstanceSet (s : Sys) : (finishConn s).micInstanceSet = s.micInstanceSet := by
  simp only [finishConn]; split <;> simp

@[simp] theorem finishConn_isDeepgramConnected (s : Sys) : (finishConn s).isDeepgramConnected = s.isDeepgramConnected := by
  simp only [finishConn]; split <;> simp

@[simp] theorem finishConn_isReceivingAudio (s : Sys) : (finishConn s).isReceivingAudio = s.isReceivingAudio := by
  simp only [finishConn]; split <;> simp

@[simp] theorem handleClientMsg_conns (m : ClientMsg) (s : Sys) : (handleClientMsg m s).conns = s.conns := by
  cases m <;> simp only [handleClientMsg] <;> (try split) <;> simp

@[simp] theorem handleClientMsg_deepgramConnection (m : ClientMsg) (s : Sys) : (handleClientMsg m s).deepgramConnection = s.deepgramConnection := by
  cases m <;> simp only [handleClientMsg] <;> (try split) <;> simp

@[simp] theorem handleClientMsg_pendingTimers (m : ClientMsg) (s : Sys) : (handleClientMsg m s).pendingTimers = s.pendingTimers := by
  cases m <;> simp only [handleClientMsg] <;> (try split) <;> simp

@[simp] theorem handleClientMsg_pendingTranslations (m : ClientMsg) (s : Sys) : (handleClientMsg m s).pendingTranslations = s.pendingTranslations := by
  cases m <;> simp only [handleClientMsg] <;> (try split) <;> simp

@[simp] theorem transcriptCount_cons_debug (m : String) (l : List OutMsg) : transcriptCount (OutMsg.debug m :: l) = transcriptCount l := by
  simp [transcriptCount, isTranscriptMsg]

@[simp] theorem transcriptCount_cons_status (m : String) (l : List OutMsg) : transcriptCount (OutMsg.status m :: l) = transcriptCount l := by
  simp [transcriptCount, isTranscriptMsg]

@[simp] theorem sendDebug_transcriptCount_sendCalls (m : String) (s : Sys) : transcriptCount (sendDebugToClient m s).sendCalls = transcriptCount s.sendCalls := by
  unfold sendDebugToClient; split <;> simp

@[simp] theorem sendDebug_transcriptCount_delivered (m : String) (s : Sys) : transcriptCount (sendDebugToClient m s).delivered = transcriptCount s.delivered := by
  unfold sendDebugToClient; split <;> simp_all

/- ### Claims -/

/-- Claim C1, counterexample: with the session muted (`mute` processed) and
    the upstream connection open, a locally captured microphone chunk of 10
    bytes IS forwarded to the upstream link — the microphone data handler
    (part_003 lines 159-177) never consults `isMuted`, so the claim that
    zero chunks are forwarded while `isMuted` is true is false for
    microphone audio. -/
theorem mic_audio_forwarded_while_muted :
    (run [Event.dgOpen 0, Event.clientMessage (some ClientMsg.mute),
          Event.micData 10 0]).isMuted = true
    ∧ (run [Event.dgOpen 0, Event.clientMessage (some ClientMsg.mute),
          Event.micData 10 0]).audioForwarded = [(0, 10)] := by
  constructor <;> rfl

/-- Claim C1 (amended): client-forwarded `audioData` chunks are never
    forwarded upstream while `isMuted` is true or while the upstream
    connection is not marked connected and open; locally captured
    microphone chunks are never forwarded while the upstream connection is
    not marked connected and open — but the microphone path does not check
    `isMuted`. -/
theorem audio_gate_amended (s : Sys) (len now : Nat) :
    (s.isMuted = true →
      (step (Event.clientMessage (some (ClientMsg.audioData len now))) s).audioForwarded
        = s.audioForwarded)
    ∧ ((s.isDeepgramConnected && dgReady s) = false →
      (step (Event.clientMessage (some (ClientMsg.audioData len now))) s).audioForwarded
        = s.audioForwarded)
    ∧ ((s.isDeepgramConnected && dgReady s) = false →
      (step (Event.micData len now) s).audioForwarded = s.audioForwarded) := by
  refine ⟨fun h => ?_, fun h => ?_, fun h => ?_⟩
  · simp only [step, onWsMessage]
    split
    · simp [handleClientMsg, h]
    · rfl
  · simp only [step, onWsMessage]
    split
    · simp [handleClientMsg, h]
    · rfl
  · simp only [step, onMicData, h, Bool.false_eq_true, if_false]
    split <;> (try split) <;> simp

/-- Witness for `audio_gate_amended` at a concrete muted session state. -/
theorem audio_gate_amended_witness :
    (step (Event.clientMessage (some (ClientMsg.audioData 10 0)))
        (run [Event.clientMessage (some ClientMsg.mute)])).audioForwarded
      = (run [Event.clientMessage (some ClientMsg.mute)]).audioForwarded
    ∧ (step (Event.micData 10 0)
        (run [Event.clientMessage (some ClientMsg.mute)])).audioForwarded
      = (run [Event.clientMessage (some ClientMsg.mute)]).audioForwarded :=
  ⟨(audio_gate_amended (run [Event.clientMessage (some ClientMsg.mute)]) 10 0).1
      (by decide),
   (audio_gate_amended (run [Event.clientMessage (some ClientMsg.mute)]) 10 0).2.2
      (by decide)⟩

/-- Claim C2, counterexample: after the upstream connection closes, two
    microphone chunks arriving before any new connection finishes opening
    each pass the `setupDeepgram` guard (which tests only
    `isDeepgramConnected`, set on Open, and `isWebSocketClosed`), creating
    two connections; both then open, so two upstream streams are live at the
    same instant in a reachable session state. -/
theorem double_open_after_reconnect_race :
    openConnCount (run [Event.dgOpen 0, Event.dgClose 0, Event.micData 1 0,
      Event.micData 1 0, Event.dgOpen 1, Event.dgOpen 2]) = 2 := by
  rfl

/-- Claim C2 (amended): while a connection is marked connected
    (`isDeepgramConnected = true`), or once the client socket has closed
    (`isWebSocketClosed = true`), no step creates a new upstream connection
    — both disjuncts of the `setupDeepgram` guard at part_003 line 57; a
    second connection can only be created — and later doubly opened —
    during the window in which a previous connection is still connecting. -/
theorem no_new_connection_while_connected_or_closed (e : Event) (s : Sys)
    (h : s.isDeepgramConnected = true ∨ s.isWebSocketClosed = true) :
    (step e s).conns.length = s.conns.length := by
  cases e with
  | clientMessage raw =>
      cases raw with
      | none =>
          simp only [step, onWsMessage]
          split <;> rfl
      | some m =>
          simp only [step, onWsMessage]
          split
          · simp
          · rfl
  | clientClose =>
      simp only [step]
      split
      · simp only [wsCloseHandler]
        split <;> (try split) <;> simp
      · rfl
  | micData len now =>
      rcases h with h | h
      · simp only [step, onMicData, h]
        split <;> (try split) <;> (try split) <;> simp_all
      · simp only [step, onMicData]
        split <;> (try split) <;> (try split) <;> simp_all [setupDeepgram, h]
  | dgOpen cid =>
      simp only [step, onDgOpen]
      split <;> (try split) <;> simp
  | dgClose cid =>
      simp only [step, onDgClose]
      split <;> (try split) <;> simp
  | dgTranscript text =>
      simp only [step, onDgTranscript]
      split <;> (try split) <;> simp
  | translationResolve res =>
      simp only [step, onTranslationResolve]
      split <;> (try split) <;> simp
  | timerFire =>
      simp only [step, onTimerFire]
      split
      · rfl
      · rcases h with h | h <;> simp [setupDeepgram, h]

/-- Witness for `no_new_connection_while_connected_or_closed`, exercising
    both disjuncts of its hypothesis: a microphone chunk in a connected
    streaming session, and a pending reconnect timer firing after the
    client socket closed. -/
theorem no_new_connection_while_connected_or_closed_witness :
    (step (Event.micData 1 0) (run [Event.dgOpen 0])).conns.length
      = (run [Event.dgOpen 0]).conns.length
    ∧ (step Event.timerFire
        (run [Event.dgOpen 0, Event.dgClose 0, Event.clientClose])).conns.length
      = (run [Event.dgOpen 0, Event.dgClose 0, Event.clientClose]).conns.length :=
  ⟨no_new_connection_while_connected_or_closed (Event.micData 1 0)
      (run [Event.dgOpen 0]) (Or.inl (by decide)),
   no_new_connection_while_connected_or_closed Event.timerFire
      (run [Event.dgOpen 0, Event.dgClose 0, Event.clientClose])
      (Or.inr (by decide))⟩

/-- Claim C9, counterexample: for a malformed (non-JSON) inbound frame, the
    message handler itself throws — `JSON.parse(message)` at part_003 line
    192 is not wrapped in any try/catch. -/
theorem malformed_json_throws :
    onWsMessage none connectInit = Except.error () := rfl

/-- Claim C9 (amended): the exception escaping the message handler on a
    malformed frame is caught only by the process-level `uncaughtException`
    handler, which logs it; the session state is otherwise unchanged and
    the client connection stays open (the update below touches only the
    uncaught-log counter, in particular `wsReady` is untouched). -/
theorem malformed_json_handled_at_process_level (s : Sys) :
    step (Event.clientMessage none) s =
      (if s.wsReady = WsReady.opened
       then { s with uncaughtLogged := s.uncaughtLogged + 1 } else s) := by
  rfl

/-- Claim C3 (confirmed): processing `setLanguage L` updates
    `currentLanguage` to `L`, creates no connection, replaces no connection
    object and schedules no timer (the branch at part_003 lines 193-195
    touches nothing else); a non-blank transcript arriving afterwards
    issues its translation call with exactly `(text, L)`, never a
    previously set language. -/
theorem set_language_applies_to_next_transcript (s : Sys) (L text : String)
    (hw : s.wsReady = WsReady.opened) :
    (step (Event.clientMessage (some (ClientMsg.setLanguage L))) s).currentLanguage = L
    ∧ (step (Event.clientMessage (some (ClientMsg.setLanguage L))) s).conns = s.conns
    ∧ (step (Event.clientMessage (some (ClientMsg.setLanguage L))) s).deepgramConnection
        = s.deepgramConnection
    ∧ (step (Event.clientMessage (some (ClientMsg.setLanguage L))) s).pendingTimers
        = s.pendingTimers
    ∧ ((text ≠ "" ∧ jsTrim text ≠ "") →
        s.conns.any (fun c => c == ConnState.opened) = true →
        (step (Event.dgTranscript text)
            (step (Event.clientMessage (some (ClientMsg.setLanguage L))) s)).pendingTranslations
          = s.pendingTranslations ++ [PendingTr.mk text L]) := by
  have hs1 : step (Event.clientMessage (some (ClientMsg.setLanguage L))) s
      = sendDebugToClient ("Language set to: " ++ (supportedLanguages L).getD "undefined")
          { s with currentLanguage := L } := by
    simp [step, onWsMessage, handleClientMsg, hw]
  rw [hs1]
  refine ⟨by simp, by simp, by simp, by simp, fun hne hopen => ?_⟩
  simp [step, onDgTranscript, hopen, hne.1, hne.2]

/-- Witness for `set_language_applies_to_next_transcript`: set `"ko"` in a
    streaming session, then transcript `"hello"` is translated to `"ko"`. -/
theorem set_language_applies_witness :
    (step (Event.clientMessage (some (ClientMsg.setLanguage "ko")))
        (run [Event.dgOpen 0])).currentLanguage = "ko"
    ∧ (step (Event.dgTranscript "hello")
        (step (Event.clientMessage (some (ClientMsg.setLanguage "ko")))
          (run [Event.dgOpen 0]))).pendingTranslations
      = (run [Event.dgOpen 0]).pendingTranslations ++ [PendingTr.mk "hello" "ko"] := by
  have h := set_language_applies_to_next_transcript (run [Event.dgOpen 0]) "ko" "hello"
    (by decide)
  exact ⟨h.1, h.2.2.2.2 (by decide) (by decide)⟩

/-- Claim C4, counterexample: the variant server (part_007 lines 82-90)
    guards only with JavaScript truthiness `if (transcript)`, so the
    whitespace-only transcript `" "` — non-empty, hence truthy — IS
    forwarded to the client as a `transcript` event. -/
theorem whitespace_transcript_forwarded_in_variant :
    transcriptHandler007 " " = [Out007.transcriptMsg " "] ∧ jsTrim " " = "" := by
  constructor
  · rfl
  · decide

/-- Claim C4 (amended): in the main (translation) server an empty or
    whitespace-only transcript issues no translation call and produces no
    `transcript` client event (part_003 line 92 tests
    `transcript && transcript.trim() !== ""`); in the variant server only
    the empty transcript is dropped. -/
theorem blank_transcript_dropped (s : Sys) (text : String)
    (hblank : jsTrim text = "") :
    (step (Event.dgTranscript text) s).pendingTranslations = s.pendingTranslations
    ∧ transcriptCount (step (Event.dgTranscript text) s).sendCalls
        = transcriptCount s.sendCalls
    ∧ transcriptCount (step (Event.dgTranscript text) s).delivered
        = transcriptCount s.delivered
    ∧ transcriptHandler007 "" = [] := by
  have hgate : ¬(text ≠ "" ∧ jsTrim text ≠ "") := fun hc => hc.2 hblank
  refine ⟨?_, ?_, ?_, rfl⟩
  all_goals
    simp only [step, onDgTranscript]
    split <;> simp_all

/-- Witness for `blank_transcript_dropped` on the whitespace transcript
    `" "` in a streaming session. -/
theorem blank_transcript_dropped_witness :
    (step (Event.dgTranscript " ") (run [Event.dgOpen 0])).pendingTranslations
      = (run [Event.dgOpen 0]).pendingTranslations
    ∧ transcriptCount (step (Event.dgTranscript " ") (run [Event.dgOpen 0])).sendCalls
      = transcriptCount (run [Event.dgOpen 0]).sendCalls :=
  ⟨(blank_transcript_dropped (run [Event.dgOpen 0]) " " (by decide)).1,
   (blank_transcript_dropped (run [Event.dgOpen 0]) " " (by decide)).2.1⟩

/-- Claim C10 (confirmed): a successful translation emits a `transcript`
    event whose language field is `supportedLanguages[currentLanguage]`
    (part_003 line 103, read at send time): `"ja"`, `"ko"`, `"ZH-HANT"`,
    `"es"` map to their labels, and any other code yields no label (the
    `undefined` lookup) even though the translation itself succeeded. -/
theorem transcript_language_label (s : Sys) (t : String) (p : PendingTr)
    (rest : List PendingTr) (hp : s.pendingTranslations = p :: rest) :
    (step (Event.translationResolve (Except.ok t)) s).sendCalls.head?
      = some (OutMsg.transcript p.original t (supportedLanguages s.currentLanguage))
    ∧ supportedLanguages "ja" = some "Japanese"
    ∧ supportedLanguages "ko" = some "Korean"
    ∧ supportedLanguages "ZH-HANT" = some "Chinese (Traditional)"
    ∧ supportedLanguages "es" = some "Spanish"
    ∧ (∀ c : String, c ≠ "ja" → c ≠ "ko" → c ≠ "ZH-HANT" → c ≠ "es" →
        supportedLanguages c = none) := by
  refine ⟨?_, by decide, by decide, by decide, by decide,
    fun c h1 h2 h3 h4 => ?_⟩
  · simp only [step, onTranslationResolve, hp]
    simp
  · simp [supportedLanguages, h1, h2, h3, h4]

/-- Witness for `transcript_language_label`: transcript `"hello"` translated
    as `"konnichiwa"` with the default language `"ja"` carries the label
    `Japanese`. -/
theorem transcript_language_label_witness :
    (step (Event.translationResolve (Except.ok "konnichiwa"))
        (run [Event.dgOpen 0, Event.dgTranscript "hello"])).sendCalls.head?
      = some (OutMsg.transcript "hello" "konnichiwa" (some "Japanese")) := by
  have h := transcript_language_label (run [Event.dgOpen 0, Event.dgTranscript "hello"])
    "konnichiwa" (PendingTr.mk "hello" "ja") [] (by decide)
  rw [h.1]
  decide

/-- Claim C5 (confirmed): when the translation call for a pending transcript
    rejects, the catch block (part_003 lines 106-109) emits a debug event
    and nothing else: no `transcript` event is produced, the failed call is
    dropped without retry, the session flags and connections are untouched,
    and a later non-blank transcript is processed normally. -/
theorem translation_failure_handling (s : Sys) (e : String) (p : PendingTr)
    (rest : List PendingTr) (hp : s.pendingTranslations = p :: rest)
    (hw : s.wsReady = WsReady.opened) :
    transcriptCount (step (Event.translationResolve (Except.error e)) s).sendCalls
      = transcriptCount s.sendCalls
    ∧ (step (Event.translationResolve (Except.error e)) s).sendCalls.head?
      = some (OutMsg.debug ("Translation error: " ++ e))
    ∧ (step (Event.translationResolve (Except.error e)) s).pendingTranslations = rest
    ∧ (step (Event.translationResolve (Except.error e)) s).conns = s.conns
    ∧ (step (Event.translationResolve (Except.error e)) s).isDeepgramConnected
      = s.isDeepgramConnected
    ∧ (step (Event.translationResolve (Except.error e)) s).currentLanguage
      = s.currentLanguage
    ∧ (step (Event.translationResolve (Except.error e)) s).isMuted = s.isMuted
    ∧ (step (Event.translationResolve (Except.error e)) s).wsReady = s.wsReady
    ∧ (∀ text : String, (text ≠ "" ∧ jsTrim text ≠ "") →
        s.conns.any (fun c => c == ConnState.opened) = true →
        (step (Event.dgTranscript text)
            (step (Event.translationResolve (Except.error e)) s)).pendingTranslations
          = rest ++ [PendingTr.mk text s.currentLanguage]) := by
  have hs1 : step (Event.translationResolve (Except.error e)) s
      = sendDebugToClient ("Translation error: " ++ e)
          { s with pendingTranslations := rest } := by
    simp only [step, onTranslationResolve, hp]
  rw [hs1]
  refine ⟨by simp, ?_, by simp, by simp, by simp, by simp, by simp, by simp,
    fun text hne hopen => ?_⟩
  · simp [sendDebugToClient, hw]
  · simp [step, onDgTranscript, hopen, hne.1, hne.2]

/-- Witness for `translation_failure_handling`: the pending translation of
    `"hello"` rejects; no transcript event is added and the queue empties. -/
theorem translation_failure_handling_witness :
    transcriptCount (step (Event.translationResolve (Except.error "quota"))
        (run [Event.dgOpen 0, Event.dgTranscript "hello"])).sendCalls
      = transcriptCount (run [Event.dgOpen 0, Event.dgTranscript "hello"]).sendCalls
    ∧ (step (Event.translationResolve (Except.error "quota"))
        (run [Event.dgOpen 0, Event.dgTranscript "hello"])).pendingTranslations = [] := by
  have h := translation_failure_handling (run [Event.dgOpen 0, Event.dgTranscript "hello"])
    "quota" (PendingTr.mk "hello" "ja") [] (by decide) (by decide)
  exact ⟨h.1, h.2.2.1⟩

/-- Claim C6 (confirmed): the upstream Close listener (part_003 lines
    124-136) sets `isDeepgramConnected` to `false`, sends `status
    Disconnected`, and schedules exactly one reconnect timer with the fixed
    5000 ms delay — if and only if the client link is not closed (in
    reachable states `isWebSocketClosed` and `ws.readyState` agree, by
    `run_wsInv`). -/
theorem upstream_close_schedules_reconnect (es : List Event) (cid : Nat)
    (hc : (run es).conns[cid]? = some ConnState.opened) :
    (step (Event.dgClose cid) (run es)).isDeepgramConnected = false
    ∧ (step (Event.dgClose cid) (run es)).sendCalls.head?
      = some (OutMsg.status "Disconnected")
    ∧ ((run es).isWebSocketClosed = false →
        (step (Event.dgClose cid) (run es)).pendingTimers
          = reconnectDelayMs :: (run es).pendingTimers)
    ∧ ((run es).isWebSocketClosed = true →
        (step (Event.dgClose cid) (run es)).pendingTimers = (run es).pendingTimers)
    ∧ reconnectDelayMs = 5000 := by
  refine ⟨?_, ?_, fun hopen => ?_, fun hclosed => ?_, rfl⟩
  · simp only [step, onDgClose]
    rw [if_pos (Or.inr hc)]
    split <;> simp
  · simp only [step, onDgClose]
    rw [if_pos (Or.inr hc)]
    split <;> simp
  · have hwr := (run_wsInv es).mp hopen
    simp only [step, onDgClose]
    rw [if_pos (Or.inr hc)]
    simp [hopen, hwr]
  · simp only [step, onDgClose]
    rw [if_pos (Or.inr hc)]
    simp [hclosed]

/-- Witness for `upstream_close_schedules_reconnect`: closing the open
    connection of a streaming session schedules one 5000 ms reconnect. -/
theorem upstream_close_schedules_reconnect_witness :
    (step (Event.dgClose 0) (run [Event.dgOpen 0])).isDeepgramConnected = false
    ∧ (step (Event.dgClose 0) (run [Event.dgOpen 0])).pendingTimers
      = reconnectDelayMs :: (run [Event.dgOpen 0]).pendingTimers := by
  have h := upstream_close_schedules_reconnect [Event.dgOpen 0] 0 (by decide)
  exact ⟨h.1, h.2.2.1 (by decide)⟩

/-- Claim C7 (confirmed): once the client link is closed, a firing reconnect
    timer has no effect — `setupDeepgram` returns at its
    `isWebSocketClosed` guard (part_003 line 57), so no connection is
    created or replaced — and the continuation of a translation call that
    resolves after the disconnect delivers nothing to the client: its
    `ws.send` lands on a closed socket. -/
theorem client_close_cancels_pending_effects (s : Sys) (r : Except String String)
    (h1 : s.isWebSocketClosed = true) (h2 : s.wsReady = WsReady.closed) :
    (step Event.timerFire s).conns = s.conns
    ∧ (step Event.timerFire s).deepgramConnection = s.deepgramConnection
    ∧ (step Event.timerFire s).isDeepgramConnected = s.isDeepgramConnected
    ∧ (step Event.timerFire s).delivered = s.delivered
    ∧ (step (Event.translationResolve r) s).delivered = s.delivered := by
  refine ⟨?_, ?_, ?_, ?_, ?_⟩
  · simp only [step, onTimerFire]
    split
    · rfl
    · simp [setupDeepgram, sendDebugToClient, h1, h2]
  · simp only [step, onTimerFire]
    split
    · rfl
    · simp [setupDeepgram, sendDebugToClient, h1, h2]
  · simp only [step, onTimerFire]
    split
    · rfl
    · simp [setupDeepgram, sendDebugToClient, h1, h2]
  · simp only [step, onTimerFire]
    split
    · rfl
    · simp [setupDeepgram, sendDebugToClient, h1, h2]
  · simp only [step, onTranslationResolve]
    split
    · rfl
    · split <;> simp [sendDebugToClient, wsSendMsg, h2]

/-- Witness for `client_close_cancels_pending_effects`: a session with a
    pending reconnect timer and an in-flight translation at client close. -/
theorem client_close_cancels_witness :
    (step Event.timerFire
        (run [Event.dgOpen 0, Event.dgTranscript "hi", Event.dgClose 0,
              Event.clientClose])).conns
      = (run [Event.dgOpen 0, Event.dgTranscript "hi", Event.dgClose 0,
              Event.clientClose]).conns
    ∧ (step (Event.translationResolve (Except.ok "x"))
        (run [Event.dgOpen 0, Event.dgTranscript "hi", Event.dgClose 0,
              Event.clientClose])).delivered
      = (run [Event.dgOpen 0, Event.dgTranscript "hi", Event.dgClose 0,
              Event.clientClose]).delivered := by
  have h := client_close_cancels_pending_effects
    (run [Event.dgOpen 0, Event.dgTranscript "hi", Event.dgClose 0, Event.clientClose])
    (Except.ok "x") (by decide) (by decide)
  exact ⟨h.1, h.2.2.2.2⟩

/-- Claim C8, counterexample: the close handler (part_003 lines 215-229)
    never clears `micInstance` or `deepgramConnection`, so running it a
    second time calls `micInstance.stop()` and
    `deepgramConnection.finish()` again — the second invocation does stop
    the microphone and finish the upstream stream again, contradicting the
    claim that it releases nothing. -/
theorem double_close_releases_twice :
    (run [Event.dgOpen 0, Event.clientClose]).micStopCalls = 1
    ∧ (run [Event.dgOpen 0, Event.clientClose]).finishCalls = 1
    ∧ (wsCloseHandler (run [Event.dgOpen 0, Event.clientClose])).micStopCalls = 2
    ∧ (wsCloseHandler (run [Event.dgOpen 0, Event.clientClose])).finishCalls = 2 :=
  ⟨rfl, rfl, rfl, rfl⟩

/-- Claim C8 (amended): a second run of the close handler throws nothing
    and leaves every piece of session state unchanged — except that it
    performs the `micInstance.stop()` and `deepgramConnection.finish()`
    calls once more, because the handles were never cleared; idempotence of
    the whole thus rests on those collaborators tolerating repeated
    stop/finish. -/
theorem second_close_run_repeats_stop_finish (s : Sys) (cid : Nat)
    (h1 : s.isWebSocketClosed = true) (h2 : s.wsReady = WsReady.closed)
    (h3 : s.micInstanceSet = true) (h4 : s.micRunning = false)
    (h5 : s.deepgramConnection = some cid)
    (h6 : s.conns[cid]? = some ConnState.closed)
    (h7 : s.isDeepgramConnected = false) (h8 : s.isReceivingAudio = false) :
    wsCloseHandler s = { s with micStopCalls := s.micStopCalls + 1,
                                finishCalls := s.finishCalls + 1 } := by
  have hset : s.conns.set cid ConnState.closed = s.conns := list_set_self _ _ _ h6
  simp [wsCloseHandler, sendDebugToClient, finishConn, h1, h2, h3, h4, h5, h6,
    h7, h8, hset]

/-- Witness for `second_close_run_repeats_stop_finish` on the state reached
    after a first client close. -/
theorem second_close_run_witness :
    wsCloseHandler (run [Event.dgOpen 0, Event.clientClose])
      = { (run [Event.dgOpen 0, Event.clientClose]) with
          micStopCalls := (run [Event.dgOpen 0, Event.clientClose]).micStopCalls + 1,
          finishCalls := (run [Event.dgOpen 0, Event.clientClose]).finishCalls + 1 } :=
  second_close_run_repeats_stop_finish (run [Event.dgOpen 0, Event.clientClose]) 0
    (by decide) (by decide) (by decide) (by decide) (by decide) (by decide)
    (by decide) (by decide)
